import Mathlib

/-!
Shallow embedding of the TWISTER environment-adapter core
(nnet/envs/atari/atari_env.py, nnet/envs/dm_control/deep_mind_control_env.py)
and of the batch-collation utility (nnet/utils/collate_fn.py).

Modelling conventions:
- a single channel plane of an image is opaque, represented by a `Nat` id;
  an observation in `(C, H, W)` layout is the list of its `C` channel planes;
- a raw rendered frame (as appended to the episode video) is an opaque `Nat`;
- rewards and action components are rationals (`ℚ`), standing for the
  program's floats: the claims under study concern accumulation structure,
  not floating-point rounding;
- the float-encoded booleans (0.0 / 1.0 tensors) are modelled as `Bool`;
- the black-box simulator is an input to `step`: one `step` call receives the
  sub-step results the simulator would have produced (one per iteration of
  the action-repeat loop for dm_control, a single result for Atari whose
  wrapper owns the frame-skip);
- fallible operations (failed `assert`, `tensor.item()` on a multi-element
  tensor, Python `KeyError` / `IndexError`) are `Option` / `Except`;
- writing a video file is a side effect: it is modelled by the `flush`
  component of the step output, which holds the exact frame sequences
  encoded into the two files when the write happens, `none` otherwise.
-/

/-- One channel plane of an image, kept opaque. -/
abbrev Chan := Nat

/-- An observation in `(C, H, W)` layout: the list of its channel planes. -/
abbrev Obs := List Chan

/-- A raw rendered frame (pre-resize), kept opaque. -/
abbrev RawFrame := Nat

/-- The `AttrDict(state=..., reward=..., done=..., is_first=..., is_last=...)`
returned by every `reset` / `step` call of either adapter. -/
structure Transition where
  state : List Chan
  reward : ℚ
  done : Bool
  is_first : Bool
  is_last : Bool
deriving Repr, DecidableEq, Inhabited

/-- Scalar form of `torch.clip(x, lo, hi)`. -/
def clipScalar (lo hi x : ℚ) : ℚ := max lo (min x hi)

/-- Channel-wise slice number `i` (length `C`) of a stacked state. -/
def frameSlice (s : List Chan) (C i : Nat) : List Chan :=
  (s.drop (C * i)).take C

namespace DeepMindControlEnv

/-- Mutable state of a `DeepMindControlEnv` instance: the constructor
parameters that `reset` / `step` consult plus the per-episode fields.
`recording` is `episode_saving_path is not None`. -/
structure State where
  img_size : Nat × Nat
  history_frames : Nat
  action_repeat : Nat
  num_actions : Nat
  recording : Bool
  episode_score : ℚ
  episode_video : List RawFrame
  episode_video_pre : List Obs
  num_channels : Nat
  history : List Chan
deriving Repr, DecidableEq, Inhabited

/-- What one iteration of the action-repeat loop obtains from the black-box
simulator: `process_infos(env.step(...))` gives `(obs_pixels, reward, done)`,
and `get_obs()` renders the raw frame appended to `episode_video`. -/
structure SubStep where
  obs : Obs
  reward : ℚ
  done : Bool
  raw : RawFrame
deriving Repr, DecidableEq, Inhabited

/-- Model of `obs_space(self)`: the declared image shape `(3, H, W)` (channel count
hardcoded to 3, independent of `history_frames`). -/
def obs_space_shape (env : State) : Nat × Nat × Nat :=
  (3, env.img_size.1, env.img_size.2)

/-- Result of `reset()`: the updated instance state and the returned
transition. -/
structure ResetOut where
  env : State
  trans : Transition
deriving Repr, DecidableEq, Inhabited

/-- Model of `reset(self)`, given the first post-reset observation `obs_pixels`
produced by `process_infos(self.env.reset())`. -/
def reset (env : State) (obs_pixels : Obs) : ResetOut :=
  let env1 :=
    if env.recording then
      { env with episode_video := [], episode_video_pre := [] }
    else env
  let history := (List.replicate env.history_frames obs_pixels).flatten
  let env2 := { env1 with
    episode_score := 0,
    num_channels := obs_pixels.length,
    history := history }
  { env := env2,
    trans := { state := history, reward := 0, done := false,
               is_first := true, is_last := false } }

/-- Accumulator of the action-repeat loop in `step`: running reward sum,
OR-ed done flag, and the two recording buffers being appended to. -/
structure LoopAcc where
  reward : ℚ
  done : Bool
  video : List RawFrame
  video_pre : List Obs
deriving Repr, DecidableEq, Inhabited

/-- One iteration of the `for i in range(self.action_repeat)` loop body:
append to the recording buffers when recording, then
`reward += step_reward; done = done or step_done`. -/
def loopIter (recording : Bool) (acc : LoopAcc) (s : SubStep) : LoopAcc :=
  { reward := acc.reward + s.reward,
    done := acc.done || s.done,
    video := if recording then acc.video ++ [s.raw] else acc.video,
    video_pre := if recording then acc.video_pre ++ [s.obs] else acc.video_pre }

/-- The whole action-repeat loop, folding over the simulator sub-steps. -/
def runLoop (recording : Bool) (video : List RawFrame) (video_pre : List Obs)
    (subs : List SubStep) : LoopAcc :=
  subs.foldl (loopIter recording)
    { reward := 0, done := false, video := video, video_pre := video_pre }

/-- Result of one `step` call: updated instance state, returned transition,
the clipped action forwarded to the simulator at every repeat iteration, and
the contents of the two video files written at episode end (`none` when no
write happened). -/
structure StepOut where
  env : State
  trans : Transition
  forwarded : List ℚ
  flush : Option (List RawFrame × List Obs)
deriving Repr, DecidableEq, Inhabited

/-- Model of `step(self, action)`, given the list of simulator sub-step results the
action-repeat loop consumes (one per iteration, so the list has length
`action_repeat`). `none` models a raised exception: the failed
`assert action.shape == (self.num_actions,)`, or the `NameError` on
`obs_pixels` when the loop body never ran. Faithful to the source, the
returned transition rebuilds `done` as `torch.tensor(False)` after the loop,
so the OR-ed flag only reaches the video-flush test. -/
def step (env : State) (action : List ℚ) (subs : List SubStep) :
    Option StepOut :=
  if action.length = env.num_actions then
    match subs.getLast? with
    | none => none
    | some lastSub =>
      let clipped := action.map (clipScalar (-1) 1)
      let acc := runLoop env.recording env.episode_video env.episode_video_pre subs
      let score := env.episode_score + acc.reward
      let flush : Option (List RawFrame × List Obs) :=
        if acc.done && env.recording then some (acc.video, acc.video_pre)
        else none
      let history := env.history.drop 3 ++ lastSub.obs
      some { env := { env with
               episode_score := score,
               episode_video := acc.video,
               episode_video_pre := acc.video_pre,
               history := history },
             trans := { state := history, reward := acc.reward, done := false,
                        is_first := false, is_last := false },
             forwarded := clipped,
             flush := flush }
  else none

end DeepMindControlEnv

namespace AtariEnv

/-- Mutable state of an `AtariEnv` instance. `recording` is
`episode_saving_path is not None`. The wrapped simulator already owns the
frame-skip (`frame_skip = action_repeat` in `AtariPreprocessing`), so the
adapter's `step` drives it exactly once per call. -/
structure State where
  img_size : Nat × Nat
  grayscale_obs : Bool
  terminal_on_life_loss : Bool
  history_frames : Nat
  num_actions : Nat
  recording : Bool
  episode_score : ℚ
  episode_video : List RawFrame
  episode_video_pre : List Obs
  history : List Chan
deriving Repr, DecidableEq, Inhabited

/-- What one `self.env.step(...)` call obtains from the wrapped simulator:
the preprocessed observation (as its channel planes), the (already
frame-skip-accumulated) reward, the wrapper's done flag, the raw screen
`self.env.env._get_image()`, and the `ale.game_over()` answer that
`preprocess` queries when `terminal_on_life_loss` is set. -/
structure SimStep where
  obs : Obs
  reward : ℚ
  done : Bool
  game_over : Bool
  raw : RawFrame
deriving Repr, DecidableEq, Inhabited

/-- Model of `obs_space(self)`: declared image shape, channel count
`(1 if grayscale else 3) * history_frames`. -/
def obs_space_shape (env : State) : Nat × Nat × Nat :=
  ((if env.grayscale_obs then 1 else 3) * env.history_frames,
   env.img_size.1, env.img_size.2)

/-- Model of `sample(self)` with the random draw made explicit: the drawn index `k`
is turned into a one-hot float vector of length `num_actions`. -/
def sample (num_actions k : Nat) : List ℚ :=
  (List.range num_actions).map (fun i => if i = k then 1 else 0)

/-- Model of `action.item()`: succeeds exactly on a one-element tensor, raises
`RuntimeError` (here `none`) otherwise. -/
def itemScalar (action : List ℚ) : Option ℚ :=
  match action with
  | [a] => some a
  | _ => none

/-- Model of `preprocess(self, state, reward, done)`: tensor conversions plus the
`is_last` computation (`ale.game_over()` under life-loss termination,
`done` otherwise). -/
def preprocess (env : State) (obs : Obs) (reward : ℚ) (done : Bool)
    (game_over : Bool) : Obs × ℚ × Bool × Bool :=
  (obs, reward, done, if env.terminal_on_life_loss then game_over else done)

/-- Result of `reset()`. -/
structure ResetOut where
  env : State
  trans : Transition
deriving Repr, DecidableEq, Inhabited

/-- Model of `reset(self)`, given the first post-reset observation. The history is
the observation repeated `history_frames` times along channels when
`history_frames > 1`, the bare observation otherwise. -/
def reset (env : State) (obs : Obs) : ResetOut :=
  let env1 :=
    if env.recording then
      { env with episode_video := [], episode_video_pre := [] }
    else env
  let history :=
    if env.history_frames > 1 then
      (List.replicate env.history_frames obs).flatten
    else obs
  let env2 := { env1 with episode_score := 0, history := history }
  { env := env2,
    trans := { state := history, reward := 0, done := false,
               is_first := true, is_last := false } }

/-- Result of one `step` call; `flush` as for the dm_control adapter. -/
structure StepOut where
  env : State
  trans : Transition
  flush : Option (List RawFrame × List Obs)
deriving Repr, DecidableEq, Inhabited

/-- Model of `step(self, action)`, given the simulator response. `none` models the
`RuntimeError` raised by `action.item()` on a tensor that does not have
exactly one element; no other check is made on the action. -/
def step (env : State) (action : List ℚ) (sim : SimStep) : Option StepOut :=
  match itemScalar action with
  | none => none
  | some _ =>
    let score := env.episode_score + sim.reward
    let video :=
      if env.recording then env.episode_video ++ [sim.raw]
      else env.episode_video
    let video_pre :=
      if env.recording then env.episode_video_pre ++ [sim.obs]
      else env.episode_video_pre
    let flush : Option (List RawFrame × List Obs) :=
      if sim.done && env.recording then some (video, video_pre) else none
    let pre := preprocess env sim.obs sim.reward sim.done sim.game_over
    let C := if env.grayscale_obs then 1 else 3
    let history :=
      if env.history_frames > 1 then env.history.drop C ++ pre.1
      else pre.1
    some { env := { env with
             episode_score := score,
             episode_video := video,
             episode_video_pre := video_pre,
             history := history },
           trans := { state := history, reward := pre.2.1, done := pre.2.2.1,
                      is_first := false, is_last := pre.2.2.2 },
           flush := flush }

end AtariEnv

namespace CollateFn

/-- A Python dict key, as far as this utility can meet one. -/
inductive PyKey where
  | int : Int → PyKey
  | str : String → PyKey
deriving Repr, DecidableEq, Inhabited

/-- One per-sample slot value, kept opaque. -/
abbrev Slot := Nat

/-- One sample: a positionally indexable record. -/
abbrev Sample := List Slot

/-- A stacked array: the selected slot of each sample, in order, along the
new leading batch axis. -/
abbrev Stacked := List Slot

/-- The `inputs_params` / `targets_params` structure: a dict, list or tuple
of axis entries (only the axis value matters to `collate`). -/
inductive Params where
  | dict : List (PyKey × Nat) → Params
  | list : List Nat → Params
  | tup : List Nat → Params
deriving Repr, DecidableEq, Inhabited

/-- What `collate` returns: a structure mirroring the params, or the bare
stacked array once the single-element collapse fired. -/
inductive Collated where
  | dict : List (PyKey × Stacked) → Collated
  | list : List Stacked → Collated
  | tup : List Stacked → Collated
  | single : Stacked → Collated
deriving Repr, DecidableEq, Inhabited

/-- The Python exceptions this utility can raise. -/
inductive PyErr where
  | keyError
  | indexError
  | stackError
deriving Repr, DecidableEq, Inhabited

/-- Model of `[sample[axis] for sample in samples]` followed by `torch.stack`:
`IndexError` when a sample is too short, `RuntimeError` (stackError) when
stacking an empty list. -/
def selectStack (samples : List Sample) (axis : Nat) : Except PyErr Stacked :=
  match samples.mapM (fun sample => sample.get? axis) with
  | none => .error .indexError
  | some picked =>
    if picked.isEmpty then .error .stackError else .ok picked

/-- Model of `collates[0] if len(collates) == 1 else collates` for the dict branch:
`collates[0]` is a dict lookup of the key `0`, a `KeyError` unless the
single entry is keyed by the integer 0. -/
def dictCollapse (collates : List (PyKey × Stacked)) : Except PyErr Collated :=
  match collates with
  | [entry] =>
    if entry.1 = PyKey.int 0 then .ok (.single entry.2)
    else .error .keyError
  | _ => .ok (.dict collates)

/-- Model of `CollateFn.collate(self, samples, collate_params)`. -/
def collate (samples : List Sample) (params : Params) :
    Except PyErr Collated :=
  match params with
  | .dict kvs => do
    let collates ← kvs.mapM (fun kv => do
      let c ← selectStack samples kv.2
      pure (kv.1, c))
    dictCollapse collates
  | .list axes => do
    let collates ← axes.mapM (selectStack samples)
    match collates with
    | [c] => pure (.single c)
    | _ => pure (.list collates)
  | .tup axes => do
    let collates ← axes.mapM (selectStack samples)
    match collates with
    | [c] => pure (.single c)
    | _ => pure (.tup collates)

end CollateFn

/-! Concrete instances used by the witness and counterexample theorems. -/

/-- A small dm_control instance: 2 history frames, 3 channels, recording on,
one-dimensional action space, action repeat 2. -/
def dmcEnvW : DeepMindControlEnv.State :=
  { img_size := (64, 64), history_frames := 2, action_repeat := 2,
    num_actions := 1, recording := true, episode_score := 0,
    episode_video := [], episode_video_pre := [], num_channels := 3,
    history := [10, 11, 12, 13, 14, 15] }

/-- A non-terminating simulator sub-step. -/
def dmcSubA : DeepMindControlEnv.SubStep :=
  { obs := [20, 21, 22], reward := 1, done := false, raw := 100 }

/-- A terminating simulator sub-step. -/
def dmcSubB : DeepMindControlEnv.SubStep :=
  { obs := [30, 31, 32], reward := 2, done := true, raw := 101 }

/-- A small Atari instance: grayscale, life-loss termination off, 2 history
frames, 4 actions, recording on. -/
def atariEnvW : AtariEnv.State :=
  { img_size := (64, 64), grayscale_obs := true,
    terminal_on_life_loss := false, history_frames := 2, num_actions := 4,
    recording := true, episode_score := 0, episode_video := [],
    episode_video_pre := [], history := [40, 41] }

/-- A non-terminal Atari simulator response. -/
def atariSimA : AtariEnv.SimStep :=
  { obs := [50], reward := 3, done := false, game_over := false, raw := 200 }

/-- A terminal Atari simulator response (game over). -/
def atariSimB : AtariEnv.SimStep :=
  { obs := [51], reward := 1, done := true, game_over := true, raw := 201 }

/-- An Atari simulator response reporting a lost life (wrapper done) while
the game itself is not over. -/
def atariSimLifeLost : AtariEnv.SimStep :=
  { obs := [52], reward := 0, done := true, game_over := false, raw := 202 }

/-- Variant of `atariEnvW` with life-loss termination enabled. -/
def atariEnvLifeLoss : AtariEnv.State :=
  { atariEnvW with terminal_on_life_loss := true }

/-! Helper lemmas about the embedded operations. -/

namespace DeepMindControlEnv

/-- The action-repeat loop from an arbitrary accumulator: running reward sum,
OR-ed done flag, buffers extended by one frame per iteration when recording. -/
theorem foldl_loopIter (recording : Bool) (subs : List SubStep) :
    ∀ acc : LoopAcc,
      subs.foldl (loopIter recording) acc =
        { reward := acc.reward + (subs.map SubStep.reward).sum,
          done := acc.done || subs.any SubStep.done,
          video := acc.video ++ (if recording then subs.map SubStep.raw else []),
          video_pre :=
            acc.video_pre ++ (if recording then subs.map SubStep.obs else []) } := by
  induction subs with
  | nil => intro acc; cases recording <;> simp
  | cons s rest ih =>
    intro acc
    rw [List.foldl_cons, ih]
    cases recording <;>
      simp [loopIter, add_assoc, Bool.or_assoc]

/-- Closed form of the whole action-repeat loop. -/
theorem runLoop_spec (recording : Bool) (video : List RawFrame)
    (video_pre : List Obs) (subs : List SubStep) :
    runLoop recording video video_pre subs =
      { reward := (subs.map SubStep.reward).sum,
        done := subs.any SubStep.done,
        video := video ++ (if recording then subs.map SubStep.raw else []),
        video_pre :=
          video_pre ++ (if recording then subs.map SubStep.obs else []) } := by
  rw [runLoop, foldl_loopIter]
  simp

/-- Closed form of `step` on a valid action shape and a non-empty sub-step list. -/
theorem dmcStep_eq_some (env : State) (action : List ℚ) (subs : List SubStep)
    (lastSub : SubStep) (hlen : action.length = env.num_actions)
    (hlast : subs.getLast? = some lastSub) :
    step env action subs =
      some { env := { env with
               episode_score :=
                 env.episode_score + (subs.map SubStep.reward).sum,
               episode_video :=
                 env.episode_video ++
                   (if env.recording then subs.map SubStep.raw else []),
               episode_video_pre :=
                 env.episode_video_pre ++
                   (if env.recording then subs.map SubStep.obs else []),
               history := env.history.drop 3 ++ lastSub.obs },
             trans := { state := env.history.drop 3 ++ lastSub.obs,
                        reward := (subs.map SubStep.reward).sum,
                        done := false, is_first := false, is_last := false },
             forwarded := action.map (clipScalar (-1) 1),
             flush :=
               if subs.any SubStep.done && env.recording then
                 some (env.episode_video ++
                         (if env.recording then subs.map SubStep.raw else []),
                       env.episode_video_pre ++
                         (if env.recording then subs.map SubStep.obs else []))
               else none } := by
  rw [step, if_pos hlen, hlast]
  simp only [runLoop_spec]

/-- The map `step` raises when the action shape does not match `(num_actions,)`. -/
theorem dmcStep_eq_none_of_bad_shape (env : State) (action : List ℚ)
    (subs : List SubStep) (hlen : action.length ≠ env.num_actions) :
    step env action subs = none := by
  rw [step, if_neg hlen]

end DeepMindControlEnv

namespace AtariEnv

/-- The extraction `item()` succeeds exactly on one-element action tensors. -/
theorem itemScalar_isSome_iff (action : List ℚ) :
    (itemScalar action).isSome = true ↔ action.length = 1 := by
  cases action with
  | nil => simp [itemScalar]
  | cons a rest => cases rest <;> simp [itemScalar]

/-- Closed form of `step` on a one-element action. -/
theorem atariStep_eq_some (env : State) (a : ℚ) (sim : SimStep) :
    step env [a] sim =
      some { env := { env with
               episode_score := env.episode_score + sim.reward,
               episode_video :=
                 if env.recording then env.episode_video ++ [sim.raw]
                 else env.episode_video,
               episode_video_pre :=
                 if env.recording then env.episode_video_pre ++ [sim.obs]
                 else env.episode_video_pre,
               history :=
                 if env.history_frames > 1 then
                   env.history.drop (if env.grayscale_obs then 1 else 3)
                     ++ sim.obs
                 else sim.obs },
             trans := { state :=
                          if env.history_frames > 1 then
                            env.history.drop
                                (if env.grayscale_obs then 1 else 3)
                              ++ sim.obs
                          else sim.obs,
                        reward := sim.reward, done := sim.done,
                        is_first := false,
                        is_last :=
                          if env.terminal_on_life_loss then sim.game_over
                          else sim.done },
             flush :=
               if sim.done && env.recording then
                 some (if env.recording then env.episode_video ++ [sim.raw]
                       else env.episode_video,
                       if env.recording then env.episode_video_pre ++ [sim.obs]
                       else env.episode_video_pre)
               else none } := by
  rw [step]
  rfl

/-- The map `step` raises (via `item()`) on any action without exactly one element. -/
theorem atariStep_eq_none_of_bad_shape (env : State) (action : List ℚ)
    (sim : SimStep) (hlen : action.length ≠ 1) :
    step env action sim = none := by
  have h : itemScalar action = none := by
    cases hit : itemScalar action with
    | none => rfl
    | some a =>
      exact absurd (itemScalar_isSome_iff action |>.mp (by rw [hit]; rfl)) hlen
  rw [step, h]

end AtariEnv

/-- Channel length of a history built by repeating one observation. -/
theorem flatten_replicate_length (obs : Obs) (H : Nat) :
    ((List.replicate H obs).flatten).length = H * obs.length := by
  simp

/-- Every frame-slice of a history built by repeating one observation is
that observation. -/
theorem frameSlice_flatten_replicate (obs : Obs) (C : Nat)
    (hC : obs.length = C) :
    ∀ H i, i < H → frameSlice (List.replicate H obs).flatten C i = obs := by
  intro H
  induction H with
  | zero => intro i hi; exact absurd hi (Nat.not_lt_zero i)
  | succ H ih =>
    intro i hi
    rw [List.replicate_succ, List.flatten_cons]
    cases i with
    | zero =>
      show ((obs ++ (List.replicate H obs).flatten).drop (C * 0)).take C = obs
      rw [Nat.mul_zero, List.drop_zero, List.take_left' hC]
    | succ i =>
      show ((obs ++ (List.replicate H obs).flatten).drop (C * (i + 1))).take C
        = obs
      have harith : C * (i + 1) = obs.length + C * i := by
        rw [hC]; ring
      rw [harith, List.drop_append]
      exact ih i (Nat.lt_of_succ_lt_succ hi)

/-- The history shift `old.drop C ++ obs`: its first `(H-1)*C` channels are
the last `(H-1)*C` channels of `old`, and its last channels are `obs`. -/
theorem shift_take_drop (old obs : List Chan) (C H : Nat)
    (hold : old.length = H * C) :
    (old.drop C ++ obs).take ((H - 1) * C) = old.drop C ∧
    (old.drop C ++ obs).drop ((H - 1) * C) = obs := by
  have hlen : (old.drop C).length = (H - 1) * C := by
    rw [List.length_drop, hold, Nat.sub_mul, one_mul]
  exact ⟨List.take_left' hlen, List.drop_left' hlen⟩

/-- When `old` holds a single frame, dropping one frame-worth of channels
empties it. -/
theorem drop_single_frame (old : List Chan) (C : Nat) (hold : old.length = C) :
    old.drop C = [] :=
  List.drop_of_length_le (by omega)

/-- A list of length one is a singleton. -/
theorem exists_single_of_length_one (action : List ℚ)
    (h : action.length = 1) : ∃ a, action = [a] := by
  cases action with
  | nil => simp at h
  | cons a rest =>
    cases rest with
    | nil => exact ⟨a, rfl⟩
    | cons b r => simp at h

/-- The continuous-control `step` raises a `NameError` when the repeat loop
never ran (no sub-step): modelled as `none`. -/
theorem dmc_step_eq_none_of_no_substeps (env : DeepMindControlEnv.State)
    (action : List ℚ) (subs : List DeepMindControlEnv.SubStep)
    (h : subs.getLast? = none) :
    DeepMindControlEnv.step env action subs = none := by
  rw [DeepMindControlEnv.step]
  split
  · rw [h]
  · rfl

/-! Claim theorems. -/

/-- C1: refuted on the code (code bug). The continuous-control `step`
OR-accumulates the per-substep termination flags, but after the loop it
rebuilds `done` as `torch.tensor(False)` unconditionally, so the returned
transition's `done` is never true. At an episode step whose only sub-step
reports termination, the recording flush still fires (the OR-ed flag was
seen there), yet the returned `done` is false — contradicting "`done` is
true iff at least one of the R underlying steps reported termination". -/
theorem dmc_step_returned_done_always_false :
    (DeepMindControlEnv.step dmcEnvW [0] [dmcSubB]).map
        (fun out => (out.trans.done, out.flush.isSome))
      = some (false, true) := by
  rfl

/-- C4: refuted on the code (code bug). The single-element collapse
`collates[0] if len(collates) == 1 else collates` indexes the collated
dict with the key `0`: a one-entry mapping with a string key raises `KeyError`
instead of returning the bare stacked array, while a one-entry list
collapses as the comment documents. -/
theorem collate_single_entry_dict_keyerror :
    CollateFn.collate [[7]]
        (CollateFn.Params.dict [(CollateFn.PyKey.str ("x"), 0)])
      = Except.error CollateFn.PyErr.keyError ∧
    CollateFn.collate [[7]] (CollateFn.Params.list [0])
      = Except.ok (CollateFn.Collated.single [7]) :=
  ⟨rfl, rfl⟩

/-- C7: confirmed. For the continuous-control adapter with a full repeat
loop (one simulator sub-step per iteration), a successful `step` returns
exactly the sum of the sub-step rewards of that call. -/
theorem dmc_step_reward_sum (env : DeepMindControlEnv.State) (action : List ℚ)
    (subs : List DeepMindControlEnv.SubStep)
    (lastSub : DeepMindControlEnv.SubStep)
    (_hrep : subs.length = env.action_repeat)
    (hlen : action.length = env.num_actions)
    (hlast : subs.getLast? = some lastSub) :
    (DeepMindControlEnv.step env action subs).map (fun out => out.trans.reward)
      = some ((subs.map DeepMindControlEnv.SubStep.reward).sum) := by
  rw [DeepMindControlEnv.dmcStep_eq_some env action subs lastSub hlen hlast]
  rfl

/-- Witness for C7 at a concrete two-iteration step: rewards 1 and 2 sum
to the returned reward. -/
theorem dmc_step_reward_sum_witness :
    (DeepMindControlEnv.step dmcEnvW [0] [dmcSubA, dmcSubB]).map
        (fun out => out.trans.reward)
      = some (([dmcSubA, dmcSubB].map DeepMindControlEnv.SubStep.reward).sum) :=
  dmc_step_reward_sum dmcEnvW [0] [dmcSubA, dmcSubB] dmcSubB rfl rfl rfl

/-- C2: counterexample. The Atari adapter never validates the action value
range: with a 4-action space, stepping on the scalar action 999 raises no
error at all — the value is extracted by `item()` and forwarded to the
simulator — contradicting "fails with an InvalidAction error when the shape
or value range is mismatched". -/
theorem atari_step_accepts_out_of_range_action :
    atariEnvW.num_actions = 4 ∧
    (AtariEnv.step atariEnvW [(999 : ℚ)] atariSimA).isSome = true :=
  ⟨rfl, rfl⟩

/-- C2 amended: the continuous-control adapter asserts the action's shape
equals `(num_actions,)` (step raises on any other shape) and silently clips
the values to `[-1, 1]` before forwarding them; the Atari adapter performs
no validation of its own — its `step` succeeds exactly when the action has
one element (the `item()` extraction), with no range check. -/
theorem step_action_validation_amended :
    (∀ (env : DeepMindControlEnv.State) (action : List ℚ)
       (subs : List DeepMindControlEnv.SubStep),
       action.length ≠ env.num_actions →
       DeepMindControlEnv.step env action subs = none)
    ∧ (∀ (env : DeepMindControlEnv.State) (action : List ℚ)
        (subs : List DeepMindControlEnv.SubStep),
        (DeepMindControlEnv.step env action subs).map
            (fun out => out.forwarded)
          = (DeepMindControlEnv.step env action subs).map
              (fun _ => action.map (clipScalar (-1) 1)))
    ∧ (∀ (env : AtariEnv.State) (action : List ℚ) (sim : AtariEnv.SimStep),
        (AtariEnv.step env action sim).isSome = true ↔ action.length = 1) := by
  refine ⟨fun env action subs h =>
    DeepMindControlEnv.dmcStep_eq_none_of_bad_shape env action subs h, ?_, ?_⟩
  · intro env action subs
    by_cases hlen : action.length = env.num_actions
    · cases hlast : subs.getLast? with
      | none =>
        rw [dmc_step_eq_none_of_no_substeps env action subs hlast]
        rfl
      | some lastSub =>
        rw [DeepMindControlEnv.dmcStep_eq_some env action subs lastSub hlen hlast]
        rfl
    · rw [DeepMindControlEnv.dmcStep_eq_none_of_bad_shape env action subs hlen]
      rfl
  · intro env action sim
    constructor
    · intro h
      by_contra hne
      rw [AtariEnv.atariStep_eq_none_of_bad_shape env action sim hne] at h
      exact absurd h (by simp)
    · intro h
      obtain ⟨a, rfl⟩ := exists_single_of_length_one action h
      rw [AtariEnv.atariStep_eq_some]
      rfl

/-- Witness for the amended C2: a two-element action is rejected by the
continuous-control adapter's shape assert, and a one-element action is
accepted by the Atari adapter. -/
theorem step_action_validation_amended_witness :
    DeepMindControlEnv.step dmcEnvW [0, 5] [dmcSubA] = none ∧
    (AtariEnv.step atariEnvW [(2 : ℚ)] atariSimA).isSome = true :=
  ⟨step_action_validation_amended.1 dmcEnvW [0, 5] [dmcSubA] (by decide),
   (step_action_validation_amended.2.2 atariEnvW [2] atariSimA).mpr rfl⟩

/-- C8: confirmed. With life-loss termination off, the Atari `is_last`
equals `done`; the continuous-control adapter always returns
`is_last = done`; with life-loss termination on, `is_last` is the `ale`
game-over answer, and the reachable life-lost response (wrapper `done`
true, game not over) yields `done = true` with `is_last = false`. -/
theorem is_last_done_relation :
    (∀ (env : AtariEnv.State) (action : List ℚ) (sim : AtariEnv.SimStep),
       env.terminal_on_life_loss = false →
       (AtariEnv.step env action sim).map (fun out => out.trans.is_last)
         = (AtariEnv.step env action sim).map (fun out => out.trans.done))
    ∧ (∀ (env : DeepMindControlEnv.State) (action : List ℚ)
        (subs : List DeepMindControlEnv.SubStep),
        (DeepMindControlEnv.step env action subs).map
            (fun out => out.trans.is_last)
          = (DeepMindControlEnv.step env action subs).map
              (fun out => out.trans.done))
    ∧ (atariEnvLifeLoss.terminal_on_life_loss = true ∧
       (AtariEnv.step atariEnvLifeLoss [0] atariSimLifeLost).map
           (fun out => (out.trans.done, out.trans.is_last))
         = some (true, false)) := by
  refine ⟨?_, ?_, rfl, by rfl⟩
  · intro env action sim h
    by_cases hlen : action.length = 1
    · obtain ⟨a, rfl⟩ := exists_single_of_length_one action hlen
      rw [AtariEnv.atariStep_eq_some]
      simp [h]
    · rw [AtariEnv.atariStep_eq_none_of_bad_shape env action sim hlen]
      rfl
  · intro env action subs
    by_cases hlen : action.length = env.num_actions
    · cases hlast : subs.getLast? with
      | none =>
        rw [dmc_step_eq_none_of_no_substeps env action subs hlast]
        rfl
      | some lastSub =>
        rw [DeepMindControlEnv.dmcStep_eq_some env action subs lastSub hlen hlast]
        rfl
    · rw [DeepMindControlEnv.dmcStep_eq_none_of_bad_shape env action subs hlen]
      rfl

/-- Witness for C8 on concrete steps of both adapters. -/
theorem is_last_done_relation_witness :
    (AtariEnv.step atariEnvW [2] atariSimB).map (fun out => out.trans.is_last)
      = (AtariEnv.step atariEnvW [2] atariSimB).map (fun out => out.trans.done)
    ∧ (DeepMindControlEnv.step dmcEnvW [0] [dmcSubA]).map
          (fun out => out.trans.is_last)
        = (DeepMindControlEnv.step dmcEnvW [0] [dmcSubA]).map
            (fun out => out.trans.done) :=
  ⟨is_last_done_relation.1 atariEnvW [2] atariSimB rfl,
   is_last_done_relation.2.1 dmcEnvW [0] [dmcSubA]⟩

/-- C9: confirmed. `sample()` returns a one-hot vector whose length is
`num_actions`, but `step` extracts the action with `item()`, which only
succeeds on one-element tensors: whenever `num_actions` is at least 2, the
sampled action is rejected by `step`. -/
theorem atari_sample_rejected_by_step :
    (∀ num_actions k, (AtariEnv.sample num_actions k).length = num_actions)
    ∧ (∀ (env : AtariEnv.State) (k : Nat) (sim : AtariEnv.SimStep),
        2 ≤ env.num_actions →
        AtariEnv.step env (AtariEnv.sample env.num_actions k) sim = none)
    ∧ (∀ (env : AtariEnv.State) (action : List ℚ) (sim : AtariEnv.SimStep),
        action.length ≠ 1 → AtariEnv.step env action sim = none)
    ∧ (∀ (env : AtariEnv.State) (action : List ℚ) (sim : AtariEnv.SimStep),
        action.length = 1 → (AtariEnv.step env action sim).isSome = true) := by
  have hlen : ∀ num_actions k,
      (AtariEnv.sample num_actions k).length = num_actions := by
    intro num_actions k
    simp [AtariEnv.sample]
  refine ⟨hlen, ?_, ?_, ?_⟩
  · intro env k sim h
    exact AtariEnv.atariStep_eq_none_of_bad_shape env _ sim (by rw [hlen]; omega)
  · exact fun env action sim h =>
      AtariEnv.atariStep_eq_none_of_bad_shape env action sim h
  · intro env action sim h
    obtain ⟨a, rfl⟩ := exists_single_of_length_one action h
    rw [AtariEnv.atariStep_eq_some]
    rfl

/-- Witness for C9: with 4 actions, the one-hot sample of index 2 is
rejected by `step`. -/
theorem atari_sample_rejected_by_step_witness :
    AtariEnv.step atariEnvW (AtariEnv.sample atariEnvW.num_actions 2)
      atariSimA = none :=
  atari_sample_rejected_by_step.2.1 atariEnvW 2 atariSimA (by decide)

/-- C3: counterexample. On a completed recorded episode the flush does
happen, but immediately afterwards the internal recording buffers are NOT
reset to empty: the step returns with both buffers still holding the
encoded frames (they are only re-initialized by the next `reset()`). -/
theorem atari_recording_buffers_not_cleared_after_flush :
    (AtariEnv.step (AtariEnv.reset atariEnvW [55]).env [2] atariSimB).map
        (fun out => (out.flush.isSome, out.env.episode_video.isEmpty,
                     out.env.episode_video_pre.isEmpty))
      = some (true, false, false) := by
  rfl

/-- C3 amended: with recording enabled, a step that observes termination
returns the two encoded video frame sequences (raw and preprocessed, one
appended frame per Atari step / per dm_control repeat iteration), and the
internal buffers are left holding exactly those encoded frames — they are
not cleared until the next `reset()`. -/
theorem recording_flush_amended :
    (∀ (env : AtariEnv.State) (a : ℚ) (sim : AtariEnv.SimStep),
       env.recording = true → sim.done = true →
       (AtariEnv.step env [a] sim).map
           (fun out => (out.flush, out.env.episode_video,
                        out.env.episode_video_pre))
         = some (some (env.episode_video ++ [sim.raw],
                       env.episode_video_pre ++ [sim.obs]),
                 env.episode_video ++ [sim.raw],
                 env.episode_video_pre ++ [sim.obs]))
    ∧ (∀ (env : DeepMindControlEnv.State) (action : List ℚ)
        (subs : List DeepMindControlEnv.SubStep)
        (lastSub : DeepMindControlEnv.SubStep),
        env.recording = true →
        subs.any DeepMindControlEnv.SubStep.done = true →
        action.length = env.num_actions → subs.getLast? = some lastSub →
        (DeepMindControlEnv.step env action subs).map
            (fun out => (out.flush, out.env.episode_video,
                         out.env.episode_video_pre))
          = some (some (env.episode_video
                          ++ subs.map DeepMindControlEnv.SubStep.raw,
                        env.episode_video_pre
                          ++ subs.map DeepMindControlEnv.SubStep.obs),
                  env.episode_video ++ subs.map DeepMindControlEnv.SubStep.raw,
                  env.episode_video_pre
                    ++ subs.map DeepMindControlEnv.SubStep.obs))
    ∧ (∀ (env : AtariEnv.State) (a : ℚ) (sim : AtariEnv.SimStep),
        env.recording = true →
        (AtariEnv.step env [a] sim).map
            (fun out => out.env.episode_video.length)
          = some (env.episode_video.length + 1)) := by
  refine ⟨?_, ?_, ?_⟩
  · intro env a sim hrec hdone
    rw [AtariEnv.atariStep_eq_some]
    simp [hrec, hdone]
  · intro env action subs lastSub hrec hany hlen hlast
    rw [DeepMindControlEnv.dmcStep_eq_some env action subs lastSub hlen hlast]
    simp [hrec, hany]
  · intro env a sim hrec
    rw [AtariEnv.atariStep_eq_some]
    simp [hrec]

/-- Witness for the amended C3 at a one-step recorded Atari episode and a
two-iteration recorded dm_control step. -/
theorem recording_flush_amended_witness :
    (AtariEnv.step atariEnvW [2] atariSimB).map
        (fun out => (out.flush, out.env.episode_video,
                     out.env.episode_video_pre))
      = some (some (atariEnvW.episode_video ++ [atariSimB.raw],
                    atariEnvW.episode_video_pre ++ [atariSimB.obs]),
              atariEnvW.episode_video ++ [atariSimB.raw],
              atariEnvW.episode_video_pre ++ [atariSimB.obs]) ∧
    (DeepMindControlEnv.step dmcEnvW [0] [dmcSubA, dmcSubB]).map
        (fun out => (out.flush, out.env.episode_video,
                     out.env.episode_video_pre))
      = some (some (dmcEnvW.episode_video
                      ++ [dmcSubA, dmcSubB].map DeepMindControlEnv.SubStep.raw,
                    dmcEnvW.episode_video_pre
                      ++ [dmcSubA, dmcSubB].map DeepMindControlEnv.SubStep.obs),
              dmcEnvW.episode_video
                ++ [dmcSubA, dmcSubB].map DeepMindControlEnv.SubStep.raw,
              dmcEnvW.episode_video_pre
                ++ [dmcSubA, dmcSubB].map DeepMindControlEnv.SubStep.obs) :=
  ⟨recording_flush_amended.1 atariEnvW 2 atariSimB rfl rfl,
   recording_flush_amended.2.1 dmcEnvW [0] [dmcSubA, dmcSubB] dmcSubB
     rfl rfl rfl rfl⟩

/-- C5: confirmed. For both adapters, `reset()` returns
`is_first = true`, `reward = 0`, `done = false`, `is_last = false`, and a
history of `history_frames * C` channels in which every frame-slice equals
the first post-reset observation. -/
theorem reset_contract :
    (∀ (env : AtariEnv.State) (obs : Obs) (C : Nat), obs.length = C →
       1 ≤ env.history_frames →
       (AtariEnv.reset env obs).trans.is_first = true ∧
       (AtariEnv.reset env obs).trans.reward = 0 ∧
       (AtariEnv.reset env obs).trans.done = false ∧
       (AtariEnv.reset env obs).trans.is_last = false ∧
       (AtariEnv.reset env obs).trans.state.length = env.history_frames * C ∧
       (∀ i, i < env.history_frames →
          frameSlice (AtariEnv.reset env obs).trans.state C i = obs))
    ∧ (∀ (env : DeepMindControlEnv.State) (obs : Obs) (C : Nat),
        obs.length = C →
        (DeepMindControlEnv.reset env obs).trans.is_first = true ∧
        (DeepMindControlEnv.reset env obs).trans.reward = 0 ∧
        (DeepMindControlEnv.reset env obs).trans.done = false ∧
        (DeepMindControlEnv.reset env obs).trans.is_last = false ∧
        (DeepMindControlEnv.reset env obs).trans.state.length
          = env.history_frames * C ∧
        (∀ i, i < env.history_frames →
           frameSlice (DeepMindControlEnv.reset env obs).trans.state C i
             = obs)) := by
  constructor
  · intro env obs C hC hH
    have hstate : (AtariEnv.reset env obs).trans.state
        = (List.replicate env.history_frames obs).flatten := by
      by_cases h1 : env.history_frames > 1
      · simp [AtariEnv.reset, h1]
      · have hEq : env.history_frames = 1 := by omega
        simp [AtariEnv.reset, hEq]
    refine ⟨rfl, rfl, rfl, rfl, ?_, ?_⟩
    · rw [hstate, flatten_replicate_length, hC]
    · intro i hi
      rw [hstate]
      exact frameSlice_flatten_replicate obs C hC env.history_frames i hi
  · intro env obs C hC
    have hstate : (DeepMindControlEnv.reset env obs).trans.state
        = (List.replicate env.history_frames obs).flatten := rfl
    refine ⟨rfl, rfl, rfl, rfl, ?_, ?_⟩
    · rw [hstate, flatten_replicate_length, hC]
    · intro i hi
      rw [hstate]
      exact frameSlice_flatten_replicate obs C hC env.history_frames i hi

/-- Witness for C5 on concrete resets of both adapters, including the
second frame-slice of each returned state. -/
theorem reset_contract_witness :
    (AtariEnv.reset atariEnvW [55]).trans.is_first = true ∧
    (AtariEnv.reset atariEnvW [55]).trans.reward = 0 ∧
    frameSlice (AtariEnv.reset atariEnvW [55]).trans.state 1 1 = [55] ∧
    (DeepMindControlEnv.reset dmcEnvW [7, 8, 9]).trans.done = false ∧
    frameSlice (DeepMindControlEnv.reset dmcEnvW [7, 8, 9]).trans.state 3 1
      = [7, 8, 9] := by
  obtain ⟨h1, h2, _, _, _, h6⟩ := reset_contract.1 atariEnvW [55] 1 rfl
    (by decide)
  obtain ⟨_, _, h3, _, _, h7⟩ := reset_contract.2 dmcEnvW [7, 8, 9] 3 rfl
  exact ⟨h1, h2, h6 1 (by decide), h3, h7 1 (by decide)⟩

/-- C6: confirmed. After any successful step, the new history's first
`(H-1)*C` channels are the previous history's last `(H-1)*C` channels and
its last `C` channels are the newest observation — for the Atari adapter
with `C = 1` (grayscale) or `3`, and for the continuous-control adapter
with its hardcoded `C = 3`. -/
theorem history_sliding_window :
    (∀ (env : AtariEnv.State) (a : ℚ) (sim : AtariEnv.SimStep) (C H : Nat),
       C = (if env.grayscale_obs then 1 else 3) → H = env.history_frames →
       1 ≤ H → env.history.length = H * C → sim.obs.length = C →
       (AtariEnv.step env [a] sim).map
           (fun out => (out.env.history.take ((H - 1) * C),
                        out.env.history.drop ((H - 1) * C)))
         = some (env.history.drop C, sim.obs))
    ∧ (∀ (env : DeepMindControlEnv.State) (action : List ℚ)
        (subs : List DeepMindControlEnv.SubStep)
        (lastSub : DeepMindControlEnv.SubStep) (H : Nat),
        H = env.history_frames → 1 ≤ H →
        action.length = env.num_actions → subs.getLast? = some lastSub →
        env.history.length = H * 3 → lastSub.obs.length = 3 →
        (DeepMindControlEnv.step env action subs).map
            (fun out => (out.env.history.take ((H - 1) * 3),
                         out.env.history.drop ((H - 1) * 3)))
          = some (env.history.drop 3, lastSub.obs)) := by
  constructor
  · intro env a sim C H hC hH hH1 hold _hobs
    rw [AtariEnv.atariStep_eq_some, Option.map_some']
    refine congrArg some ?_
    have hhist : (if env.history_frames > 1 then
          env.history.drop (if env.grayscale_obs then 1 else 3) ++ sim.obs
        else sim.obs) = env.history.drop C ++ sim.obs := by
      subst hC hH
      by_cases h1 : env.history_frames > 1
      · rw [if_pos h1]
      · have hEq : env.history_frames = 1 := by omega
        rw [if_neg h1,
          drop_single_frame env.history _ (by rw [hold, hEq, one_mul]),
          List.nil_append]
    show ((if env.history_frames > 1 then
        env.history.drop (if env.grayscale_obs then 1 else 3) ++ sim.obs
      else sim.obs).take ((H - 1) * C),
      (if env.history_frames > 1 then
        env.history.drop (if env.grayscale_obs then 1 else 3) ++ sim.obs
      else sim.obs).drop ((H - 1) * C)) = _
    rw [hhist, (shift_take_drop env.history sim.obs C H hold).1,
      (shift_take_drop env.history sim.obs C H hold).2]
  · intro env action subs lastSub H hH hH1 hlen hlast hold _hobs
    rw [DeepMindControlEnv.dmcStep_eq_some env action subs lastSub hlen hlast,
      Option.map_some']
    refine congrArg some ?_
    show ((env.history.drop 3 ++ lastSub.obs).take ((H - 1) * 3),
      (env.history.drop 3 ++ lastSub.obs).drop ((H - 1) * 3)) = _
    rw [(shift_take_drop env.history lastSub.obs 3 H hold).1,
      (shift_take_drop env.history lastSub.obs 3 H hold).2]

/-- Witness for C6 on concrete steps of both adapters. -/
theorem history_sliding_window_witness :
    (AtariEnv.step atariEnvW [2] atariSimA).map
        (fun out => (out.env.history.take ((2 - 1) * 1),
                     out.env.history.drop ((2 - 1) * 1)))
      = some (atariEnvW.history.drop 1, atariSimA.obs) ∧
    (DeepMindControlEnv.step dmcEnvW [0] [dmcSubA, dmcSubB]).map
        (fun out => (out.env.history.take ((2 - 1) * 3),
                     out.env.history.drop ((2 - 1) * 3)))
      = some (dmcEnvW.history.drop 3, dmcSubB.obs) :=
  ⟨history_sliding_window.1 atariEnvW 2 atariSimA 1 2 rfl rfl (by decide)
     rfl rfl,
   history_sliding_window.2 dmcEnvW [0] [dmcSubA, dmcSubB] dmcSubB 2 rfl
     (by decide) rfl rfl rfl rfl⟩

/-- C10: confirmed. `obs_space()` of the continuous-control adapter always
declares 3 channels, while the state produced by `reset` and by any
successful `step` has `3 * history_frames` channels: for
`history_frames > 1` the declared and actual channel counts differ. -/
theorem dmc_obs_space_channel_mismatch :
    (∀ env : DeepMindControlEnv.State,
       (DeepMindControlEnv.obs_space_shape env).1 = 3)
    ∧ (∀ (env : DeepMindControlEnv.State) (obs : Obs), obs.length = 3 →
        (DeepMindControlEnv.reset env obs).trans.state.length
          = 3 * env.history_frames)
    ∧ (∀ (env : DeepMindControlEnv.State) (action : List ℚ)
        (subs : List DeepMindControlEnv.SubStep)
        (lastSub : DeepMindControlEnv.SubStep),
        action.length = env.num_actions → subs.getLast? = some lastSub →
        1 ≤ env.history_frames →
        env.history.length = 3 * env.history_frames → lastSub.obs.length = 3 →
        (DeepMindControlEnv.step env action subs).map
            (fun out => out.trans.state.length)
          = some (3 * env.history_frames))
    ∧ (∀ env : DeepMindControlEnv.State, 1 < env.history_frames →
        (DeepMindControlEnv.obs_space_shape env).1
          ≠ 3 * env.history_frames) := by
  refine ⟨fun env => rfl, ?_, ?_, ?_⟩
  · intro env obs hobs
    show ((List.replicate env.history_frames obs).flatten).length = _
    rw [flatten_replicate_length, hobs, Nat.mul_comm]
  · intro env action subs lastSub hlen hlast hH hold hobs
    rw [DeepMindControlEnv.dmcStep_eq_some env action subs lastSub hlen hlast,
      Option.map_some']
    refine congrArg some ?_
    show (env.history.drop 3 ++ lastSub.obs).length = _
    rw [List.length_append, List.length_drop, hold, hobs]
    omega
  · intro env h
    show (3 : Nat) ≠ 3 * env.history_frames
    omega

/-- Witness for C10 at a 2-history-frame continuous-control instance. -/
theorem dmc_obs_space_channel_mismatch_witness :
    (DeepMindControlEnv.reset dmcEnvW [7, 8, 9]).trans.state.length
      = 3 * dmcEnvW.history_frames ∧
    (DeepMindControlEnv.step dmcEnvW [0] [dmcSubA, dmcSubB]).map
        (fun out => out.trans.state.length)
      = some (3 * dmcEnvW.history_frames) ∧
    (DeepMindControlEnv.obs_space_shape dmcEnvW).1
      ≠ 3 * dmcEnvW.history_frames :=
  ⟨dmc_obs_space_channel_mismatch.2.1 dmcEnvW [7, 8, 9] rfl,
   dmc_obs_space_channel_mismatch.2.2.1 dmcEnvW [0] [dmcSubA, dmcSubB]
     dmcSubB rfl rfl (by decide) rfl rfl,
   dmc_obs_space_channel_mismatch.2.2.2 dmcEnvW (by decide)⟩
